import Mathlib

/-!
# Verification of the bizinfo-automation application-writer subsystem

This file embeds, as Lean definitions, the parts of the repository that the
specification's claims are about:

* the profile-chat API route (conversational company-profile collection:
  required-field bookkeeping, completion percentage, JSON-parse fallback and
  the merge of newly extracted fields into the running profile);
* the `ApplicationWriter` client component (tier prices, per-tier style lists
  and revision counts, the per-style composition loop, the revision callback,
  and the step state machine gating composition behind credit payment);
* the payment-completion route's notification credits table.

JavaScript objects whose keys are looked up dynamically are embedded as
association lists of `String × JValue`; JavaScript truthiness/strict-equality
tests are embedded field by field where the source performs them.
-/

/-- A JSON-ish value as it can appear in a JavaScript object field
(`undefined` is kept as an explicit value so that `{k: undefined}` can be
distinguished from a missing key where the source tests `!== undefined`). -/
inductive JValue where
  | jNull : JValue
  | jUndef : JValue
  | jStr : String → JValue
  | jNum : Int → JValue
  | jBool : Bool → JValue
deriving DecidableEq, Repr

/-- A JavaScript object with string keys, as an association list
(first binding for a key wins on lookup, keys are unique in practice). -/
abbrev Profile : Type := List (String × JValue)

/-- Lookup of a field in a profile object. -/
def Profile.get (p : Profile) (k : String) : Option JValue :=
  List.lookup k p

/-- The JavaScript object spread `{...a, ...b}`: every key of `b` is present
with `b`'s value, keys only in `a` keep `a`'s value. -/
def jsSpread (a b : Profile) : Profile :=
  (a.filter fun kv => (Profile.get b kv.1).isNone) ++ b

/-- The presence test performed by the route on a profile field:
`v !== undefined && v !== null && v !== ''` (a missing key reads as
`undefined` in JavaScript, hence is absent). -/
def isPresent : Option JValue → Bool
  | none => false
  | some JValue.jUndef => false
  | some JValue.jNull => false
  | some (JValue.jStr s) => !(s = "")
  | some _ => true

/-- The five required fields of the profile-chat route
(`requiredFields` in the source). -/
def requiredFields : List String :=
  ["company_name", "business_field", "founding_year", "main_products", "target_goal"]

/-- Count of required fields present in a profile
(`collectedRequiredFields.length` / `updatedRequiredFields.length`). -/
def requiredPresentCount (p : Profile) : Nat :=
  (requiredFields.filter fun f => isPresent (Profile.get p f)).length

/-- `Math.round(num / den)` on nonnegative values: round half away from zero,
as a natural-number computation. -/
def jsMathRound (num den : Nat) : Nat :=
  (2 * num + den) / (2 * den)

/-- `Math.round((count / requiredFields.length) * 100)`: for the route's
5 required fields the float computation is exact, so this equals rounding
`count * 100 / 5`. -/
def completionPct (p : Profile) : Nat :=
  jsMathRound (requiredPresentCount p * 100) requiredFields.length

/-- Shape of the model's JSON reply after `JSON.parse` succeeds
(fields the route reads; `extracted_data` is optional because the route
guards it with `|| {}`). -/
structure ParsedResponse where
  extracted_data : Option Profile
  ai_response : String
  next_question_field : Option String
  is_complete : Bool
  completion_percentage : Int
deriving DecidableEq, Repr

/-- The JSON body of a successful profile-chat response. -/
structure ChatResponse where
  success : Bool
  ai_response : String
  extracted_data : Profile
  profile_data : Profile
  completion_percentage : Nat
  is_complete : Bool
  next_question_field : Option String
deriving DecidableEq, Repr

/-- The profile-chat route `POST` from the point where the model's text is in
hand: `aiResponseText` is the model output (after the code-fence stripping the
route performs), and `parsed = none` embeds the case where `JSON.parse` threw,
taking the route's fallback branch. The function then performs the source's
spread merge, recomputation of the completion percentage, the `>= 60`
completeness test, and builds the response object. -/
def profileChatPost (currentProfile : Profile) (aiResponseText : String)
    (parsed : Option ParsedResponse) : ChatResponse :=
  let collectedProfile := currentProfile
  let parsedResponse : ParsedResponse :=
    match parsed with
    | some r => r
    | none =>
      { extracted_data := some []
        ai_response := aiResponseText
        next_question_field := none
        is_complete := false
        completion_percentage := (completionPct collectedProfile : Int) }
  let extracted := parsedResponse.extracted_data.getD []
  let updatedProfile := jsSpread collectedProfile extracted
  let updatedCompletionPercentage := completionPct updatedProfile
  let isComplete := decide (60 ≤ updatedCompletionPercentage)
  { success := true
    ai_response := parsedResponse.ai_response
    extracted_data := extracted
    profile_data := updatedProfile
    completion_percentage := updatedCompletionPercentage
    is_complete := isComplete
    next_question_field := if isComplete then none else parsedResponse.next_question_field }

-- Basic lemmas about the spread merge

theorem Profile.get_nil (k : String) : Profile.get ([] : Profile) k = none := rfl

theorem jsSpread_nil (a : Profile) : jsSpread a [] = a := by
  unfold jsSpread
  rw [List.append_nil]
  exact List.filter_eq_self.mpr (fun kv _ => rfl)

theorem lookup_append (k : String) (l1 l2 : Profile) :
    List.lookup k (l1 ++ l2) =
      (List.lookup k l1).orElse (fun _ => List.lookup k l2) := by
  induction l1 with
  | nil => simp [List.lookup, Option.orElse]
  | cons kv l1 ih =>
    rw [List.cons_append]
    simp only [List.lookup]
    cases hbe : (k == kv.1) with
    | true => simp [Option.orElse]
    | false => simpa [Option.orElse] using ih

theorem lookup_filter_of_key_true (p : String × JValue → Bool) (l : Profile) (k : String)
    (h : ∀ v, p (k, v) = true) :
    List.lookup k (l.filter p) = List.lookup k l := by
  induction l with
  | nil => rfl
  | cons kv l ih =>
    obtain ⟨k1, v1⟩ := kv
    by_cases hkk : k = k1
    · subst hkk
      rw [List.filter_cons, h v1]
      simp [List.lookup]
    · have hbe : (k == k1) = false := beq_eq_false_iff_ne.mpr hkk
      rw [List.filter_cons]
      cases hp : p (k1, v1) <;> simp [List.lookup, hbe, ih]

theorem lookup_filter_of_key_false (p : String × JValue → Bool) (l : Profile) (k : String)
    (h : ∀ v, p (k, v) = false) :
    List.lookup k (l.filter p) = none := by
  induction l with
  | nil => rfl
  | cons kv l ih =>
    obtain ⟨k1, v1⟩ := kv
    by_cases hkk : k = k1
    · subst hkk
      rw [List.filter_cons, h v1]
      simpa using ih
    · have hbe : (k == k1) = false := beq_eq_false_iff_ne.mpr hkk
      rw [List.filter_cons]
      cases hp : p (k1, v1) <;> simp [List.lookup, hbe, ih]

/-- A key present in the spread source `b` ends up with `b`'s value:
`{...a, ...b}[k] = b[k]` whenever `k ∈ b`. -/
theorem get_jsSpread_of_some (a b : Profile) (k : String) (v : JValue)
    (h : Profile.get b k = some v) :
    Profile.get (jsSpread a b) k = some v := by
  unfold jsSpread Profile.get
  rw [lookup_append]
  rw [lookup_filter_of_key_false _ _ _
    (fun w => by show (Profile.get b k).isNone = false; rw [h]; rfl)]
  show (Option.none.orElse fun _ => List.lookup k b) = some v
  simpa [Option.orElse, Profile.get] using h

/-- A key absent from the spread source `b` keeps `a`'s value:
`{...a, ...b}[k] = a[k]` whenever `k ∉ b`. -/
theorem get_jsSpread_of_none (a b : Profile) (k : String)
    (h : Profile.get b k = none) :
    Profile.get (jsSpread a b) k = Profile.get a k := by
  unfold jsSpread Profile.get
  rw [lookup_append]
  rw [lookup_filter_of_key_true _ _ _
    (fun w => by show (Profile.get b k).isNone = true; rw [h]; rfl)]
  cases hl : List.lookup k a
  · simp only [hl, Option.orElse]
    rw [show List.lookup k b = none from h]
  · simp only [hl, Option.orElse]

-- Completion-threshold arithmetic

theorem completion_decide_iff (q : Profile) :
    (decide (60 ≤ completionPct q) = true) ↔
      (0.6 : ℚ) ≤ (requiredPresentCount q : ℚ) / (requiredFields.length : ℚ) := by
  rw [decide_eq_true_iff]
  have harith : (60 ≤ completionPct q) ↔ 3 ≤ requiredPresentCount q := by
    show 60 ≤ (2 * (requiredPresentCount q * 100) + requiredFields.length) /
      (2 * requiredFields.length) ↔ _
    rw [show requiredFields.length = 5 from rfl]
    omega
  rw [harith, show ((requiredFields.length : ℕ) : ℚ) = (5 : ℚ) by norm_num [requiredFields]]
  rw [le_div_iff₀ (by norm_num : (0 : ℚ) < 5)]
  constructor
  · intro h
    have h3 : (3 : ℚ) ≤ (requiredPresentCount q : ℚ) := by exact_mod_cast h
    linarith
  · intro h
    have h3 : (3 : ℚ) ≤ (requiredPresentCount q : ℚ) := by linarith
    exact_mod_cast h3

/-- C1 counterexample: a profile whose required field `company_name` is already
populated with `"Acme"` does not keep its prior value when the model's
extraction for the turn re-extracts `company_name`; the spread merge
`{...collectedProfile, ...extracted_data}` lets the new extraction win. -/
theorem c1_overwrite_counterexample :
    isPresent (Profile.get [("company_name", JValue.jStr "Acme")] "company_name") = true ∧
    Profile.get (profileChatPost [("company_name", JValue.jStr "Acme")] "reply"
      (some { extracted_data := some [("company_name", JValue.jStr "Beta")]
              ai_response := "reply"
              next_question_field := some "business_field"
              is_complete := false
              completion_percentage := 20 })).profile_data "company_name"
      = some (JValue.jStr "Beta") := by
  constructor
  · rfl
  · decide

/-- C1 amended: under the route's spread merge, a field of the profile keeps
its prior value exactly when the turn's extraction does not mention it; a
field present in the extraction — populated before or not — receives the
extracted value. -/
theorem c1_merge_amended (p : Profile) (raw : String) (r : ParsedResponse) (f : String) :
    (Profile.get (r.extracted_data.getD []) f = none →
      Profile.get (profileChatPost p raw (some r)).profile_data f = Profile.get p f) ∧
    (∀ v : JValue, Profile.get (r.extracted_data.getD []) f = some v →
      Profile.get (profileChatPost p raw (some r)).profile_data f = some v) :=
  ⟨fun h => get_jsSpread_of_none p _ f h,
   fun v h => get_jsSpread_of_some p _ f v h⟩

/-- Witness for the amended C1 at a concrete turn: the populated
`company_name` is kept because the extraction omits it, and the newly
extracted `business_field` is written. -/
theorem c1_merge_amended_witness :
    Profile.get (profileChatPost [("company_name", JValue.jStr "Acme")] "reply"
      (some { extracted_data := some [("business_field", JValue.jStr "IT")]
              ai_response := "reply"
              next_question_field := some "founding_year"
              is_complete := false
              completion_percentage := 40 })).profile_data "company_name"
      = some (JValue.jStr "Acme") ∧
    Profile.get (profileChatPost [("company_name", JValue.jStr "Acme")] "reply"
      (some { extracted_data := some [("business_field", JValue.jStr "IT")]
              ai_response := "reply"
              next_question_field := some "founding_year"
              is_complete := false
              completion_percentage := 40 })).profile_data "business_field"
      = some (JValue.jStr "IT") := by
  constructor
  · exact (c1_merge_amended [("company_name", JValue.jStr "Acme")] "reply"
      { extracted_data := some [("business_field", JValue.jStr "IT")]
        ai_response := "reply"
        next_question_field := some "founding_year"
        is_complete := false
        completion_percentage := 40 } "company_name").1 (by decide)
  · exact (c1_merge_amended [("company_name", JValue.jStr "Acme")] "reply"
      { extracted_data := some [("business_field", JValue.jStr "IT")]
        ai_response := "reply"
        next_question_field := some "founding_year"
        is_complete := false
        completion_percentage := 40 } "business_field").2 (JValue.jStr "IT") (by decide)

/-- C4: a profile-chat turn reports `is_complete = true` exactly when the
completion ratio recomputed from required-field presence after the merge is
at least 0.60, and below the threshold the turn stays collecting, passing the
model's chosen next-question field through to the caller. -/
theorem c4_sufficient_threshold (p : Profile) (raw : String) (r : ParsedResponse) :
    ((profileChatPost p raw (some r)).is_complete = true ↔
      (0.6 : ℚ) ≤ (requiredPresentCount (profileChatPost p raw (some r)).profile_data : ℚ) /
        (requiredFields.length : ℚ)) ∧
    ((profileChatPost p raw (some r)).is_complete = false →
      (profileChatPost p raw (some r)).next_question_field = r.next_question_field) := by
  constructor
  · exact completion_decide_iff (jsSpread p (r.extracted_data.getD []))
  · intro h
    have h' : decide (60 ≤ completionPct (jsSpread p (r.extracted_data.getD []))) = false := h
    show (if decide (60 ≤ completionPct (jsSpread p (r.extracted_data.getD []))) = true
      then none else r.next_question_field) = r.next_question_field
    rw [h']
    simp

/-- Witness for C4 at a concrete turn with one of five required fields
present: 1/5 is below 0.60, the turn is not complete, and the model's
next-question field is returned. -/
theorem c4_sufficient_threshold_witness :
    (profileChatPost [] "ok"
      (some { extracted_data := some [("company_name", JValue.jStr "Acme")]
              ai_response := "ok"
              next_question_field := some "business_field"
              is_complete := false
              completion_percentage := 20 })).next_question_field
      = some "business_field" :=
  (c4_sufficient_threshold [] "ok"
    { extracted_data := some [("company_name", JValue.jStr "Acme")]
      ai_response := "ok"
      next_question_field := some "business_field"
      is_complete := false
      completion_percentage := 20 }).2 (by decide)

/-- C5: the completion percentage of every profile-chat response is the
deterministic recomputation from presence of the five defined required fields
in the merged profile, and it is invariant under the model's self-reported
`completion_percentage`. -/
theorem c5_recomputed_percentage (p : Profile) (raw : String) (pr : Option ParsedResponse) :
    ((profileChatPost p raw pr).completion_percentage =
      jsMathRound (requiredPresentCount (profileChatPost p raw pr).profile_data * 100)
        requiredFields.length) ∧
    requiredFields.length = 5 ∧
    (∀ (r : ParsedResponse) (x : Int),
      (profileChatPost p raw (some { r with completion_percentage := x })).completion_percentage =
        (profileChatPost p raw (some r)).completion_percentage) := by
  refine ⟨?_, rfl, fun r x => rfl⟩
  cases pr with
  | none => rfl
  | some r => rfl

/-- C9: when the model's text cannot be parsed as JSON (`parsed = none`), the
turn returns the ordinary success shape in the same turn: the raw text is the
user-facing reply, no fields are extracted, the profile is unchanged, and no
error is surfaced. -/
theorem c9_parse_fallback (p : Profile) (raw : String) :
    (profileChatPost p raw none).success = true ∧
    (profileChatPost p raw none).ai_response = raw ∧
    (profileChatPost p raw none).extracted_data = [] ∧
    (profileChatPost p raw none).profile_data = p ∧
    (profileChatPost p raw none).completion_percentage = completionPct p ∧
    (profileChatPost p raw none).next_question_field = none := by
  refine ⟨rfl, rfl, rfl, ?_, ?_, ?_⟩
  · exact jsSpread_nil p
  · show completionPct (jsSpread p []) = completionPct p
    rw [jsSpread_nil]
  · show (if decide (60 ≤ completionPct (jsSpread p [])) = true then none else none)
      = (none : Option String)
    split <;> rfl

/-- C10 counterexample: the route stores whatever value the model returns for
`founding_year`; when the extraction carries the literal answer string, that
string — not an integer — is recorded in the merged profile. -/
theorem c10_literal_string_counterexample :
    Profile.get (profileChatPost [] "reply"
      (some { extracted_data := some [("founding_year", JValue.jStr "about 2019 I think")]
              ai_response := "reply"
              next_question_field := none
              is_complete := false
              completion_percentage := 20 })).profile_data "founding_year"
      = some (JValue.jStr "about 2019 I think") := by decide

/-- C10 amended: the route records the model's extracted value for a numeric
field verbatim — integer coercion and the leave-absent-when-ambiguous rule
live only in the system prompt's instructions to the model, so the stored
`founding_year` is an integer exactly when the model returned one. -/
theorem c10_numeric_passthrough (p : Profile) (raw : String) (r : ParsedResponse)
    (v : JValue) (h : Profile.get (r.extracted_data.getD []) "founding_year" = some v) :
    Profile.get (profileChatPost p raw (some r)).profile_data "founding_year" = some v :=
  get_jsSpread_of_some p _ "founding_year" v h

/-- Witness for the amended C10: a model extraction carrying the integer 2019
is stored as the integer 2019. -/
theorem c10_numeric_passthrough_witness :
    Profile.get (profileChatPost [] "reply"
      (some { extracted_data := some [("founding_year", JValue.jNum 2019)]
              ai_response := "reply"
              next_question_field := none
              is_complete := false
              completion_percentage := 20 })).profile_data "founding_year"
      = some (JValue.jNum 2019) :=
  c10_numeric_passthrough [] "reply"
    { extracted_data := some [("founding_year", JValue.jNum 2019)]
      ai_response := "reply"
      next_question_field := none
      is_complete := false
      completion_percentage := 20 } (JValue.jNum 2019) (by decide)

-- The ApplicationWriter component (frontend-saas/components/ApplicationWriter.tsx)

/-- Service tiers of the application writer. -/
inductive Tier where
  | basic
  | standard
  | premium
deriving DecidableEq, Repr

/-- Per-tier price in credit currency units (`getTierPrice`). -/
def getTierPrice : Tier → Nat
  | Tier.basic => 4900
  | Tier.standard => 8000
  | Tier.premium => 15000

/-- Per-tier revision allotment (`getTierRevisions`): the `remainingRevisions`
value the component hands to the feedback phase. -/
def getTierRevisions : Tier → Nat
  | Tier.basic => 1
  | Tier.standard => 3
  | Tier.premium => 7

/-- Per-tier list of generation styles (`getStylesForTier`). -/
def getStylesForTier : Tier → List String
  | Tier.basic => ["story"]
  | Tier.standard => ["story", "data", "aggressive"]
  | Tier.premium => ["story", "data", "aggressive", "balanced", "strategic"]

/-- The credits table of the payment-complete route's notification payload
(`tierCreditsMap` in `app/api/application-writer/payment-complete/route.ts`);
it feeds the payment notification message only. -/
def tierCreditsMap : Tier → Nat
  | Tier.basic => 2
  | Tier.standard => 3
  | Tier.premium => 4

/-- JavaScript `a || b` on an optional string (empty string is falsy). -/
def jsOrStr (a b : Option String) : Option String :=
  match a with
  | some s => if s = "" then b else some s
  | none => b

/-- JavaScript `a || d` producing a definite string default. -/
def jsOrStrD (a : Option String) (d : String) : String :=
  match a with
  | some s => if s = "" then d else s
  | none => d

/-- One `{title, content}` subsection of a generated document. -/
structure DocSubsection where
  title : String
  content : String
deriving DecidableEq, Repr

/-- One section of a generated document (`content` and `subsections` may each
be absent, as in the JSON the component receives). -/
structure DocSection where
  title : String
  content : Option String
  subsections : Option (List DocSubsection)
deriving DecidableEq, Repr

/-- Document content attached to one generated application draft. -/
structure Content where
  sections : Option (List DocSection)
  plain_text : Option String
deriving DecidableEq, Repr

/-- The JSON body returned by one `/api/application-writer/compose` call, as
read by `handleCompanyInfoSubmit`. -/
structure ComposeData where
  application_content : Option Content
  sections : Option (List DocSection)
  plain_text : Option String
  style_name : Option String
deriving DecidableEq, Repr

/-- The `content` fallback object the component builds when the response has
no populated `application_content.sections`. -/
def composeFallbackContent (data : ComposeData) : Content :=
  { sections := some (data.sections.getD [])
    plain_text := jsOrStr data.plain_text
      (jsOrStr (data.application_content.bind Content.plain_text) none) }

/-- Selection of the draft content from a compose response
(`data.application_content && data.application_content.sections?.length > 0`). -/
def contentOf (data : ComposeData) : Content :=
  match data.application_content with
  | some ac => if 0 < (ac.sections.getD []).length then ac else composeFallbackContent data
  | none => composeFallbackContent data

/-- Character count of a section: when `subsections` is present (even empty),
only subsection contents are counted, mirroring the component's truthiness
test on `section.subsections`. -/
def sectionCharCount (s : DocSection) : Nat :=
  match s.subsections with
  | some subs => subs.foldl (fun a sub => a + sub.content.length) 0
  | none => (s.content.getD "").length

/-- Character count of a draft's content. -/
def contentCharCount (c : Content) : Nat :=
  match c.sections with
  | some secs => secs.foldl (fun a s => a + sectionCharCount s) 0
  | none => 0

/-- Styles classified as combination styles by the component
(`['balanced', 'strategic', 'trusted', 'expert'].includes(style)`). -/
def combinationStyles : List String := ["balanced", "strategic", "trusted", "expert"]

/-- The `styleType` tag assigned to a generated draft. -/
def styleTypeOf (style : String) : String :=
  if style ∈ combinationStyles then "combination" else "base"

/-- One generated application draft (`ApplicationResult`). -/
structure ApplicationResult where
  style : String
  styleName : String
  styleType : String
  styleRank : Nat
  isRecommended : Bool
  content : Content
  charCount : Nat
  sectionCount : Nat
deriving DecidableEq, Repr

/-- The `ApplicationResult` record pushed for the style at loop index `i`. -/
def mkApplicationResult (style : String) (i : Nat) (data : ComposeData) : ApplicationResult :=
  let content := contentOf data
  { style := style
    styleName := jsOrStrD data.style_name style
    styleType := styleTypeOf style
    styleRank := i + 1
    isRecommended := decide (i = 0)
    content := content
    charCount := contentCharCount content
    sectionCount := (content.sections.getD []).length }

/-- Outcome of one `fetch` call to the compose API: either the parsed JSON
body, or a non-ok response with an optional `detail` message. -/
inductive FetchResult (α : Type) where
  | ok (data : α)
  | err (detail : Option String)
deriving DecidableEq, Repr

/-- Whether a fetch succeeded (`response.ok`). -/
def FetchResult.isOk {α : Type} : FetchResult α → Bool
  | FetchResult.ok _ => true
  | FetchResult.err _ => false

/-- The per-style generation loop of `handleCompanyInfoSubmit`: styles are
generated sequentially; a non-ok response throws, which aborts the whole loop
and discards every draft generated so far. -/
def composeGo (fetch : String → FetchResult ComposeData) :
    List String → Nat → Except String (List ApplicationResult)
  | [], _ => Except.ok []
  | style :: rest, i =>
    match fetch style with
    | FetchResult.err detail =>
        Except.error (jsOrStrD detail (style ++ " 스타일 신청서 생성 실패"))
    | FetchResult.ok data =>
        match composeGo fetch rest (i + 1) with
        | Except.ok apps => Except.ok (mkApplicationResult style i data :: apps)
        | Except.error e => Except.error e

/-- A whole composition pass for a tier. -/
def composeStyles (tier : Tier) (fetch : String → FetchResult ComposeData) :
    Except String (List ApplicationResult) :=
  composeGo fetch (getStylesForTier tier) 0

/-- The `handleRevisionComplete` callback: replace the content of the drafts
whose style is the currently selected one, leave every other draft as is. -/
def handleRevisionComplete (selectedStyle : String) (newContent : Content)
    (apps : List ApplicationResult) : List ApplicationResult :=
  apps.map fun app =>
    if app.style = selectedStyle then { app with content := newContent } else app

-- The ApplicationWriter step state machine

/-- The component's `Step` union type. -/
inductive Step where
  | tierSelect
  | paymentProcessing
  | writingAnalysisLoading
  | taskSelection
  | companyInfo
  | generating
  | feedback
  | completed
deriving DecidableEq, Repr

/-- The component state the claims are about: the current step, the selected
tier, the credit balance read at mount, the generated drafts and the selected
style. `charged` is a ghost flag set exactly when the credit-deduction API
call is made and succeeds (it is skipped entirely in development mode). -/
structure WriterState where
  step : Step
  selectedTier : Tier
  creditBalance : Nat
  charged : Bool
  applications : List ApplicationResult
  selectedStyle : String
deriving DecidableEq, Repr

/-- An externally observable event driving the component: user actions and
the outcomes of the awaited API calls inside the handlers. -/
inductive WEvent where
  | selectTier (t : Tier)
  | payClick
  | payOutcome (deductOk : Bool)
  | analysisOutcome (ok : Bool)
  | taskSelected
  | taskClose
  | profileClose
  | submitInfo
  | generateOutcome (fetch : String → FetchResult ComposeData)
  | styleSelect (style : String)
  | revisionDone (newContent : Content)
  | feedbackClose
  | finalize

/-- One transition of the component, transcribed from the handlers: an event
whose handler or UI element is not live in the current step leaves the state
unchanged. `devMode` is `process.env.NODE_ENV === 'development'`, under which
`handleCreditPayment` skips the credit-deduction API call. -/
def writerStep (devMode : Bool) (s : WriterState) (e : WEvent) : WriterState :=
  match s.step, e with
  | Step.tierSelect, WEvent.selectTier t => { s with selectedTier := t }
  | Step.tierSelect, WEvent.payClick =>
      if s.creditBalance < getTierPrice s.selectedTier then s
      else { s with step := Step.paymentProcessing }
  | Step.paymentProcessing, WEvent.payOutcome deductOk =>
      if devMode then { s with step := Step.writingAnalysisLoading }
      else if deductOk then
        { s with step := Step.writingAnalysisLoading, charged := true }
      else { s with step := Step.tierSelect }
  | Step.writingAnalysisLoading, WEvent.analysisOutcome ok =>
      if ok then { s with step := Step.taskSelection }
      else { s with step := Step.tierSelect }
  | Step.taskSelection, WEvent.taskSelected => { s with step := Step.companyInfo }
  | Step.taskSelection, WEvent.taskClose => { s with step := Step.tierSelect }
  | Step.companyInfo, WEvent.profileClose => { s with step := Step.taskSelection }
  | Step.companyInfo, WEvent.submitInfo => { s with step := Step.generating }
  | Step.generating, WEvent.generateOutcome fetch =>
      match composeStyles s.selectedTier fetch with
      | Except.ok apps =>
          { s with step := Step.feedback
                   applications := apps
                   selectedStyle := jsOrStrD (apps.head?.map ApplicationResult.style) "story" }
      | Except.error _ => { s with step := Step.companyInfo }
  | Step.feedback, WEvent.styleSelect style => { s with selectedStyle := style }
  | Step.feedback, WEvent.revisionDone c =>
      { s with applications := handleRevisionComplete s.selectedStyle c s.applications }
  | Step.feedback, WEvent.feedbackClose => { s with step := Step.generating }
  | Step.feedback, WEvent.finalize => { s with step := Step.completed }
  | _, _ => s

/-- The component's initial state (`useState` initializers), with the credit
balance read at mount. -/
def initWriterState (balance : Nat) : WriterState :=
  { step := Step.tierSelect
    selectedTier := Tier.basic
    creditBalance := balance
    charged := false
    applications := []
    selectedStyle := "story" }

/-- Run the component over a sequence of events. -/
def runWriter (devMode : Bool) (s : WriterState) (evs : List WEvent) : WriterState :=
  evs.foldl (writerStep devMode) s

/-- Invariant: while no successful credit deduction has happened, the
component has not progressed past tier selection or the transient
payment-processing step. -/
def ChargedInv (s : WriterState) : Prop :=
  s.charged = false → s.step = Step.tierSelect ∨ s.step = Step.paymentProcessing

theorem chargedInv_step (s : WriterState) (e : WEvent) (h : ChargedInv s) :
    ChargedInv (writerStep false s e) := by
  obtain ⟨st, tier, bal, ch, apps, sel⟩ := s
  unfold ChargedInv at h ⊢
  cases st <;> cases e <;> simp only [writerStep] <;> intro hch <;>
    (try split at hch) <;> (try split at hch) <;> (try split) <;> simp_all

theorem runWriter_chargedInv (evs : List WEvent) :
    ∀ s : WriterState, ChargedInv s → ChargedInv (runWriter false s evs) := by
  induction evs with
  | nil => intro s h; exact h
  | cons e evs ih =>
    intro s h
    exact ih (writerStep false s e) (chargedInv_step s e h)

-- Composition-pass lemmas

theorem composeGo_ok_of_all (fetch : String → FetchResult ComposeData) :
    ∀ (l : List String) (i : Nat),
      (l.all fun s => (fetch s).isOk) = true →
      ∃ apps, composeGo fetch l i = Except.ok apps ∧ apps.length = l.length := by
  intro l
  induction l with
  | nil => exact fun i _ => ⟨[], rfl, rfl⟩
  | cons s rest ih =>
    intro i h
    rw [List.all_cons, Bool.and_eq_true] at h
    obtain ⟨hs, hrest⟩ := h
    obtain ⟨apps, happ, hlen⟩ := ih (i + 1) hrest
    cases hf : fetch s with
    | err d => rw [hf] at hs; simp [FetchResult.isOk] at hs
    | ok d =>
      refine ⟨mkApplicationResult s i d :: apps, ?_, by simp [hlen]⟩
      simp only [composeGo, hf, happ]

theorem composeGo_ok_elim (fetch : String → FetchResult ComposeData) :
    ∀ (l : List String) (i : Nat) (apps : List ApplicationResult),
      composeGo fetch l i = Except.ok apps →
      (l.all fun s => (fetch s).isOk) = true ∧ apps.length = l.length ∧
        apps.map ApplicationResult.styleType = l.map styleTypeOf := by
  intro l
  induction l with
  | nil =>
    intro i apps h
    simp only [composeGo, Except.ok.injEq] at h
    subst h
    exact ⟨rfl, rfl, rfl⟩
  | cons s rest ih =>
    intro i apps h
    cases hf : fetch s with
    | err d =>
      simp only [composeGo, hf] at h
      exact Except.noConfusion h
    | ok d =>
      simp only [composeGo, hf] at h
      cases hr : composeGo fetch rest (i + 1) with
      | error e => rw [hr] at h; simp at h
      | ok rapps =>
        rw [hr] at h
        simp only [Except.ok.injEq] at h
        subst h
        obtain ⟨hall, hlen, hmap⟩ := ih (i + 1) rapps hr
        refine ⟨?_, by simp [hlen], ?_⟩
        · rw [List.all_cons, Bool.and_eq_true]
          exact ⟨by rw [hf]; rfl, hall⟩
        · simp only [List.map_cons, hmap]
          rfl

/-- C2 counterexample: a premium composition pass in which exactly the two
combination styles fail (3 of 5 calls succeed) is an error for the whole
pass — the first failing style throws, drafts already generated are
discarded, and no partial result of 3 drafts is returned. -/
theorem c2_partial_failure_counterexample :
    composeStyles Tier.premium (fun s =>
      if s = "balanced" ∨ s = "strategic" then FetchResult.err none
      else FetchResult.ok
        { application_content := none, sections := none
          plain_text := none, style_name := none })
      = Except.error "balanced 스타일 신청서 생성 실패" := by rfl

/-- C2 amended: the composition pass is all-or-nothing — it returns drafts
(one per tier style) exactly when every style-generation call succeeds, and
any single failure fails the whole pass. -/
theorem c2_all_or_nothing (tier : Tier) (fetch : String → FetchResult ComposeData) :
    ((getStylesForTier tier).all fun s => (fetch s).isOk) = true ↔
      ∃ apps, composeStyles tier fetch = Except.ok apps ∧
        apps.length = (getStylesForTier tier).length := by
  constructor
  · intro h
    exact composeGo_ok_of_all fetch _ 0 h
  · rintro ⟨apps, happ, -⟩
    exact (composeGo_ok_elim fetch _ 0 apps happ).1

/-- C3 counterexample: in development mode the credit-deduction call is
bypassed, so the component reaches the `generating` (composing) step with no
successful tier charge having occurred. -/
theorem c3_devmode_counterexample :
    (runWriter true (initWriterState 1000000)
      [WEvent.payClick, WEvent.payOutcome false, WEvent.analysisOutcome true,
       WEvent.taskSelected, WEvent.submitInfo]).step = Step.generating ∧
    (runWriter true (initWriterState 1000000)
      [WEvent.payClick, WEvent.payOutcome false, WEvent.analysisOutcome true,
       WEvent.taskSelected, WEvent.submitInfo]).charged = false :=
  ⟨rfl, rfl⟩

/-- C3 amended: outside development mode, every event sequence that brings
the component to the `generating` (composing) step contains a successful
credit deduction for the selected tier beforehand. -/
theorem c3_payment_gates_composition (balance : Nat) (evs : List WEvent)
    (h : (runWriter false (initWriterState balance) evs).step = Step.generating) :
    (runWriter false (initWriterState balance) evs).charged = true := by
  have hinv := runWriter_chargedInv evs (initWriterState balance) (fun _ => Or.inl rfl)
  rcases Bool.eq_false_or_eq_true ((runWriter false (initWriterState balance) evs).charged)
    with hch | hch
  · exact hch
  · rcases hinv hch with h1 | h1 <;> (rw [h] at h1; exact Step.noConfusion h1)

/-- Witness for the amended C3: a production-mode run that pays for the basic
tier and reaches `generating` indeed carries a successful charge. -/
theorem c3_payment_gates_composition_witness :
    (runWriter false (initWriterState 4900)
      [WEvent.payClick, WEvent.payOutcome true, WEvent.analysisOutcome true,
       WEvent.taskSelected, WEvent.submitInfo]).charged = true :=
  c3_payment_gates_composition 4900
    [WEvent.payClick, WEvent.payOutcome true, WEvent.analysisOutcome true,
     WEvent.taskSelected, WEvent.submitInfo] rfl

/-- C6: the session's revision allotment per tier, as computed by
`getTierRevisions` and handed to the feedback phase as `remainingRevisions`,
is 1 for basic, 3 for standard and 7 for premium. -/
theorem c6_tier_revision_allotment :
    getTierRevisions Tier.basic = 1 ∧ getTierRevisions Tier.standard = 3 ∧
      getTierRevisions Tier.premium = 7 :=
  ⟨rfl, rfl, rfl⟩

/-- C7: a successful composition pass produces exactly one draft per tier
style — 1 for basic, 3 for standard, 5 for premium — and for premium the
five drafts are tagged 3 base styles followed by 2 combination styles. -/
theorem c7_styles_per_tier (tier : Tier) (fetch : String → FetchResult ComposeData)
    (apps : List ApplicationResult) (h : composeStyles tier fetch = Except.ok apps) :
    apps.length = (getStylesForTier tier).length ∧
    (getStylesForTier Tier.basic).length = 1 ∧
    (getStylesForTier Tier.standard).length = 3 ∧
    (getStylesForTier Tier.premium).length = 5 ∧
    (tier = Tier.premium →
      apps.map ApplicationResult.styleType =
        ["base", "base", "base", "combination", "combination"]) := by
  obtain ⟨hall, hlen, hmap⟩ := composeGo_ok_elim fetch _ 0 apps h
  refine ⟨hlen, rfl, rfl, rfl, ?_⟩
  intro htier
  subst htier
  rw [hmap]
  rfl

/-- Witness for C7: an all-successful premium pass yields 5 drafts tagged
base, base, base, combination, combination. -/
theorem c7_styles_per_tier_witness :
    ∃ apps, composeStyles Tier.premium (fun _ => FetchResult.ok
        { application_content := none, sections := none
          plain_text := none, style_name := none })
      = Except.ok apps ∧ apps.length = 5 ∧
      apps.map ApplicationResult.styleType =
        ["base", "base", "base", "combination", "combination"] := by
  refine ⟨_, rfl, ?_, ?_⟩
  · exact (c7_styles_per_tier Tier.premium (fun _ => FetchResult.ok
      { application_content := none, sections := none
        plain_text := none, style_name := none }) _ rfl).1
  · exact (c7_styles_per_tier Tier.premium (fun _ => FetchResult.ok
      { application_content := none, sections := none
        plain_text := none, style_name := none }) _ rfl).2.2.2.2 rfl

/-- C8: applying a revision replaces the content of exactly the draft whose
style is the selected one; the draft list keeps its length and every draft of
a different style is untouched. -/
theorem c8_revision_scoped (sel : String) (c : Content) (apps : List ApplicationResult)
    (i : Nat) (app : ApplicationResult) (h : apps[i]? = some app) :
    (handleRevisionComplete sel c apps).length = apps.length ∧
    (app.style ≠ sel → (handleRevisionComplete sel c apps)[i]? = some app) ∧
    (app.style = sel →
      (handleRevisionComplete sel c apps)[i]? = some { app with content := c }) := by
  refine ⟨List.length_map apps _, ?_, ?_⟩
  · intro hne
    simp only [handleRevisionComplete, List.getElem?_map, h, Option.map_some']
    rw [if_neg hne]
  · intro heq
    simp only [handleRevisionComplete, List.getElem?_map, h, Option.map_some']
    rw [if_pos heq]

/-- Witness for C8: in a session with a story draft and a data draft, revising
the selected story style leaves the data draft exactly as it was. -/
theorem c8_revision_scoped_witness :
    (handleRevisionComplete "story" { sections := none, plain_text := some "new" }
      [ { style := "story", styleName := "Story", styleType := "base", styleRank := 1,
          isRecommended := true, content := { sections := none, plain_text := some "old1" },
          charCount := 0, sectionCount := 0 },
        { style := "data", styleName := "Data", styleType := "base", styleRank := 2,
          isRecommended := false, content := { sections := none, plain_text := some "old2" },
          charCount := 0, sectionCount := 0 } ])[1]?
      = some { style := "data", styleName := "Data", styleType := "base", styleRank := 2,
               isRecommended := false, content := { sections := none, plain_text := some "old2" },
               charCount := 0, sectionCount := 0 } := by
  have hmain := c8_revision_scoped "story" { sections := none, plain_text := some "new" }
    [ { style := "story", styleName := "Story", styleType := "base", styleRank := 1,
        isRecommended := true, content := { sections := none, plain_text := some "old1" },
        charCount := 0, sectionCount := 0 },
      { style := "data", styleName := "Data", styleType := "base", styleRank := 2,
        isRecommended := false, content := { sections := none, plain_text := some "old2" },
        charCount := 0, sectionCount := 0 } ] 1
    { style := "data", styleName := "Data", styleType := "base", styleRank := 2,
      isRecommended := false, content := { sections := none, plain_text := some "old2" },
      charCount := 0, sectionCount := 0 } rfl
  exact hmain.2.1 (by decide)
